import Mathlib

/-
Verification development for the llama-kotlin-android native engine
(app/src/main/cpp/llama_context_wrapper.cpp).  Token sequences are lists of
Int (llama_token is int32_t); machine arithmetic on uint64/size_t values is
made explicit with modular reduction by 2^64 where the C code can wrap.
Loops are modelled by structural recursion on an explicit bound (the loop
variant); each bound is chosen so that the fuel-exhausted branch coincides
with the loop's own exit condition, so the model equals the loop on every
input.
-/

namespace LlamaKotlin

/-- 2^64, the modulus of C uint64_t / size_t arithmetic. -/
def U64 : Nat := 2 ^ 64

/-- The prime modulus of computeRollingHash (const uint64_t MOD = 1e9 + 7). -/
def HASHMOD : Nat := 1000000007

/-- The base of computeRollingHash (const uint64_t BASE = 31). -/
def HASHBASE : Nat := 31

/-- Conversion of a llama_token (int32_t) to uint64_t: value modulo 2^64. -/
def tokU64 (t : Int) : Nat := (t.emod ((2 : Int) ^ 64)).toNat

/-- One iteration of the hash loop of computeRollingHash: the pair carries
(hash, power); hash = (hash + (tokens[i] % MOD) * power) % MOD and
power = (power * BASE) % MOD, with the intermediate uint64 products reduced
mod 2^64 as in C. -/
def hashStep (p : Nat × Nat) (t : Int) : Nat × Nat :=
  (((p.1 + (((tokU64 t % HASHMOD) * p.2) % U64)) % U64) % HASHMOD,
   (((p.2 * HASHBASE) % U64) % HASHMOD))

/-- computeRollingHash(tokens, start, len): polynomial rolling hash of
tokens[start .. min(start+len, size)). -/
def computeRollingHash (tokens : List Int) (start len : Nat) : Nat :=
  (((tokens.drop start).take len).foldl hashStep (0, 1)).1

/-- The sampled verification loop of findLongestCommonPrefix, with the
remaining iteration bound as fuel: starting at index i, check every
max(1, mid/16)-th index below mid for exact equality; false as soon as a
mismatch is found.  The index grows by at least 1 per step, so with fuel
mid - i the fuel-exhausted branch is only reached when i has passed mid,
where the loop also answers true. -/
def sampledCheckAux (a b : List Int) (mid : Nat) : Nat → Nat → Bool
  | 0, _ => true
  | fuel + 1, i =>
    if i < mid then
      if a.getD i 0 = b.getD i 0 then
        sampledCheckAux a b mid fuel (i + max 1 (mid / 16))
      else false
    else true

/-- The sampled verification of findLongestCommonPrefix starting at index i. -/
def sampledCheck (a b : List Int) (mid i : Nat) : Bool :=
  sampledCheckAux a b mid (mid - i) i

/-- The binary-search loop of findLongestCommonPrefix, with the interval
width as fuel.  Each iteration shrinks hi + 1 - lo by at least 1, so with
fuel hi + 1 - lo the fuel-exhausted branch is only reached when lo > hi,
where the loop also returns result.  (The source enters the loop with lo = 1
and lo never decreases, so mid is at least 1 on every reachable state and
the Nat truncation in mid - 1 agrees with the size_t arithmetic.) -/
def lcpSearchAux (a b : List Int) : Nat → Nat → Nat → Nat → Nat
  | 0, _, _, result => result
  | fuel + 1, lo, hi, result =>
    if lo ≤ hi then
      if (computeRollingHash a 0 (lo + (hi - lo) / 2) ==
            computeRollingHash b 0 (lo + (hi - lo) / 2)) &&
          sampledCheck a b (lo + (hi - lo) / 2) 0 then
        lcpSearchAux a b fuel (lo + (hi - lo) / 2 + 1) hi (lo + (hi - lo) / 2)
      else
        lcpSearchAux a b fuel lo (lo + (hi - lo) / 2 - 1) result
    else result

/-- The binary-search loop of findLongestCommonPrefix from state
(lo, hi, result). -/
def lcpSearch (a b : List Int) (lo hi result : Nat) : Nat :=
  lcpSearchAux a b (hi + 1 - lo) lo hi result

/-- findLongestCommonPrefix(a, b): returns 0 on an empty input or differing
first elements, otherwise binary-searches with rolling hashes. -/
def findLongestCommonPrefix (a b : List Int) : Nat :=
  if a.isEmpty || b.isEmpty then 0
  else
    if a.getD 0 0 ≠ b.getD 0 0 then 0
    else lcpSearch a b 1 (min a.length b.length) 0

/-- The true longest-common-prefix length (the naive reference the spec
compares against). -/
def lcpLen : List Int → List Int → Nat
  | x :: xs, y :: ys => if x = y then lcpLen xs ys + 1 else 0
  | _, _ => 0

/-- The cut-point search loop of smartTruncate, with the distance to the end
of the list as fuel: scan i upward while i < searchEnd and i < size, stopping
at the first index whose token (or predecessor token) is a value below 50;
otherwise return the initial bestCutPoint, which the source computes by the
same size_t expression as searchEnd.  i grows by 1 per step, so with fuel
size - i the fuel-exhausted branch is only reached when i ≥ size, where the
loop also answers searchEnd. -/
def findCutAux (tokens : List Int) (searchEnd : Nat) : Nat → Nat → Nat
  | 0, _ => searchEnd
  | fuel + 1, i =>
    if i < searchEnd ∧ i < tokens.length then
      if tokens.getD i 0 < 50 ∨ (0 < i ∧ tokens.getD (i - 1) 0 < 50) then i
      else findCutAux tokens searchEnd fuel (i + 1)
    else searchEnd

/-- The cut-point search of smartTruncate starting at index i. -/
def findCut (tokens : List Int) (searchEnd i : Nat) : Nat :=
  findCutAux tokens searchEnd (tokens.length - i) i

/-- The tail-copy loop of smartTruncate, with the distance to the end of the
list as fuel: push tokens[i], then break once the result length has reached
maxTokens; curLen is the length of the result so far (the head segment). -/
def tailFromAux (tokens : List Int) (maxTokens : Nat) :
    Nat → Nat → Nat → List Int
  | 0, _, _ => []
  | fuel + 1, i, curLen =>
    if i < tokens.length then
      if maxTokens ≤ curLen + 1 then [tokens.getD i 0]
      else tokens.getD i 0 :: tailFromAux tokens maxTokens fuel (i + 1) (curLen + 1)
    else []

/-- The tail-copy loop of smartTruncate from index i with current result
length curLen. -/
def tailFrom (tokens : List Int) (maxTokens i curLen : Nat) : List Int :=
  tailFromAux tokens maxTokens (tokens.length - i) i curLen

/-- The local keepStart of smartTruncate: max(32, 15% of the target), the
head reservation for the system prompt. -/
def keepStart (maxTokens : Nat) : Nat := max 32 (maxTokens * 15 / 100)

/-- The local keepEnd of smartTruncate: a C int, negative when the 32-token
minimum head exceeds the target. -/
def keepEnd (maxTokens : Nat) : Int := (maxTokens : Int) - keepStart maxTokens

/-- The local searchStart of smartTruncate: size - keepEnd - 128 in size_t
arithmetic, wrapping modulo 2^64. -/
def searchStart (size maxTokens : Nat) : Nat :=
  (((size : Int) - keepEnd maxTokens - 128).emod ((2 : Int) ^ 64)).toNat

/-- The local searchEnd of smartTruncate (also the initial bestCutPoint):
size - keepEnd in size_t arithmetic, wrapping modulo 2^64. -/
def searchEnd (size maxTokens : Nat) : Nat :=
  (((size : Int) - keepEnd maxTokens).emod ((2 : Int) ^ 64)).toNat

/-- The head segment of smartTruncate: the first keepStart tokens (bounded by
the sequence length, as the copy loop checks both i < keepStart and
i < size). -/
def headSeg (tokens : List Int) (maxTokens : Nat) : List Int :=
  tokens.take (min (keepStart maxTokens) tokens.length)

/-- smartTruncate(tokens, maxTokens): keep a head of max(32, 15% of target)
tokens and a tail from a heuristically chosen cut point. -/
def smartTruncate (tokens : List Int) (maxTokens : Nat) : List Int :=
  if tokens.length ≤ maxTokens then tokens
  else
    headSeg tokens maxTokens ++
      tailFrom tokens maxTokens
        (findCut tokens (searchEnd tokens.length maxTokens)
          (searchStart tokens.length maxTokens))
        (headSeg tokens maxTokens).length

/-! The session and generation model (llama_context_wrapper.h / .cpp).
Sampling parameters declared float in the header are modelled as rationals:
the sampler-chain conditions only compare them against the exactly
representable constants 0 and 1. -/

/-- LlamaConfig with the header's defaults (0.7f = 7/10 etc.). -/
structure LlamaConfig where
  contextSize : Int := 2048
  batchSize : Int := 512
  threads : Int := 4
  threadsBatch : Int := 4
  temperature : Rat := 7 / 10
  topP : Rat := 9 / 10
  topK : Int := 40
  repeatPenalty : Rat := 11 / 10
  maxTokens : Int := 512
  useMmap : Bool := true
  useMlock : Bool := false
  gpuLayers : Int := 0
  seed : Int := -1
deriving DecidableEq, Repr

/-- One sampler of the chain built by setupSampler, with the arguments the
source passes to the corresponding llama_sampler_init_* call. -/
inductive SamplerStage where
  | penalties (lastN : Nat) (repeatP freqP presentP : Rat)
  | topK (k : Int)
  | topP (p : Rat) (minKeep : Nat)
  | temp (t : Rat)
  | dist (seed : Nat)
deriving DecidableEq, Repr

/-- setupSampler(config): the ordered sampler chain built by the source; now
is the wall-clock time at chain-build time, already truncated to uint32_t,
used only when the configured seed is negative. -/
def setupSampler (config : LlamaConfig) (now : Nat) : List SamplerStage :=
  (if config.repeatPenalty ≠ 1 then
    [SamplerStage.penalties 64 config.repeatPenalty 0 0] else []) ++
  (if 0 < config.topK then [SamplerStage.topK config.topK] else []) ++
  (if config.topP < 1 then [SamplerStage.topP config.topP 1] else []) ++
  (if 0 < config.temperature then [SamplerStage.temp config.temperature] else []) ++
  [SamplerStage.dist (if 0 ≤ config.seed then config.seed.toNat else now)]

/-- The sampler chain as the specification describes it (spec section 4.3 and
claim C7), written from the claim's words for the refinement comparison:
penalties present iff repeatPenalty is not the no-op value 1.0, with window
64 and zero frequency/presence components; top-k present iff topK > 0;
top-p present iff topP < 1.0; temperature present iff temperature > 0;
always a final draw stage seeded by the configured seed when seed ≥ 0 and by
wall-clock time when seed < 0. -/
def samplerChainSpec (config : LlamaConfig) (now : Nat) : List SamplerStage :=
  (if config.repeatPenalty = 1 then none
    else some (SamplerStage.penalties 64 config.repeatPenalty 0 0)).toList ++
  (if config.topK ≤ 0 then none else some (SamplerStage.topK config.topK)).toList ++
  (if 1 ≤ config.topP then none
    else some (SamplerStage.topP config.topP 1)).toList ++
  (if config.temperature ≤ 0 then none
    else some (SamplerStage.temp config.temperature)).toList ++
  [SamplerStage.dist (if config.seed < 0 then now else config.seed.toNat)]

/-- A resource-release call issued by unloadModel, with the handle it
releases. -/
inductive FreeEvent where
  | freeSampler (h : Nat)
  | freeContext (h : Nat)
  | freeModel (h : Nat)
deriving DecidableEq, Repr

/-- The resource state of a session as unloadModel sees it: the three backend
handles (none = nullptr) and the last-error slot. -/
structure SessionRes where
  sampler : Option Nat
  context : Option Nat
  model : Option Nat
  lastError : String
deriving DecidableEq, Repr

/-- unloadModel(): free sampler, context and model in that order, each only
after a non-null check, nulling the handle after the free; the error slot is
not touched.  Returns the new state and the free calls issued. -/
def unloadModel (s : SessionRes) : SessionRes × List FreeEvent :=
  ({ s with sampler := none, context := none, model := none },
    (match s.sampler with
     | some h => [FreeEvent.freeSampler h]
     | none => []) ++
    (match s.context with
     | some h => [FreeEvent.freeContext h]
     | none => []) ++
    (match s.model with
     | some h => [FreeEvent.freeModel h]
     | none => []))

/-- n consecutive unloadModel calls: final state and all free calls issued. -/
def unloadN : SessionRes → Nat → SessionRes × List FreeEvent
  | s, 0 => (s, [])
  | s, n + 1 =>
    ((unloadN (unloadModel s).1 n).1,
     (unloadModel s).2 ++ (unloadN (unloadModel s).1 n).2)

/-- The opaque inference backend as generateStream uses it: prompt
tokenization, the context window size reported by llama_n_ctx, per-chunk
prompt decode results, the token sampled at each generation step, the
end-of-generation test, single-token detokenization, and the per-step
feed-back decode results. -/
structure Backend where
  tokenize : String → List Int
  nCtx : Nat
  promptDecode : Nat → Bool
  sample : Nat → Int
  isEog : Int → Bool
  piece : Int → String
  decode : Nat → Bool

/-- The session state read by generateStream: the three handles, the stored
configuration, the error slot and the two lock-free flags. -/
structure Session where
  model : Option Nat
  context : Option Nat
  sampler : Option Nat
  currentConfig : LlamaConfig
  lastError : String
  isGenerating : Bool
  shouldCancel : Bool

/-- Why the generation loop stopped. -/
inductive StopReason where
  | internalError
  | invalidSample
  | eog
  | decodeError
  | limit
  | cancelled
deriving DecidableEq, Repr

/-- An observable event of a generateStream call: a write to the
is-generating flag, the llama_batch_free call, or a callback invocation. -/
inductive GEvent where
  | setGenerating (b : Bool)
  | freeBatch
  | emit (s : String)
deriving DecidableEq, Repr

/-- The generation loop's result: callback payloads in order, the error it
recorded (empty if none), its stop reason, and the number of iterations it
started. -/
structure LoopOut where
  emitted : List String
  err : String
  reason : StopReason
  iters : Nat
deriving DecidableEq, Repr

/-- The observable outcome of one generateStream call. reason is none when
the generation loop was never reached (early error return). -/
structure GenOutcome where
  emitted : List String
  lastError : String
  isGenerating : Bool
  events : List GEvent
  reason : Option StopReason
  iters : Nat
deriving DecidableEq, Repr

/-- The prompt-processing loop: chunks of min(batchSize, remaining) tokens;
pflag i is the value returned by the loop's i-th read of shouldCancel_
(checked before each chunk; the final check with nothing left short-circuits
without reading the flag).  Returns false exactly when a chunk decode
failed; a cancelled or completed loop returns true.  batchSizeT is the
size_t cast of the int batch size.  Each iteration processes at least one
token when batchSizeT ≥ 1, so fuel nPrompt suffices and the fuel-exhausted
branch is unreachable then; with batchSizeT = 0 the C loop would not
terminate, so the theorems assume the configuration invariant 0 <
batchSize. -/
def promptLoop (be : Backend) (pflag : Nat → Bool) (batchSizeT nPrompt : Nat) :
    Nat → Nat → Nat → Bool
  | 0, _, _ => true
  | fuel + 1, processed, cIdx =>
    if processed < nPrompt then
      if pflag cIdx then true
      else if be.promptDecode cIdx then
        promptLoop be pflag batchSizeT nPrompt fuel
          (processed + min batchSizeT (nPrompt - processed)) (cIdx + 1)
      else false
    else true

/-- The token-generation loop.  i counts started iterations and equals
n_generated at every loop-condition check (an iteration that breaks early is
never followed by another); gflag i is the value returned by the loop's i-th
read of shouldCancel_; fuel is maxTokens - n_generated, so the
fuel-exhausted branch coincides with the loop condition n_generated <
maxTokens failing (reason limit), which the source tests before reading the
flag (short-circuit &&). -/
def genLoop (be : Backend) (gflag : Nat → Bool) (sampler context : Option Nat) :
    Nat → Nat → LoopOut
  | _, 0 => ⟨[], "", StopReason.limit, 0⟩
  | i, fuel + 1 =>
    if gflag i then ⟨[], "", StopReason.cancelled, 0⟩
    else if sampler.isNone || context.isNone then
      ⟨[], "Internal error: sampler or context is null",
        StopReason.internalError, 1⟩
    else if be.sample i < 0 then ⟨[], "", StopReason.invalidSample, 1⟩
    else if be.isEog (be.sample i) then ⟨[], "", StopReason.eog, 1⟩
    else if be.decode i then
      ⟨be.piece (be.sample i) ::
          (genLoop be gflag sampler context (i + 1) fuel).emitted,
        (genLoop be gflag sampler context (i + 1) fuel).err,
        (genLoop be gflag sampler context (i + 1) fuel).reason,
        (genLoop be gflag sampler context (i + 1) fuel).iters + 1⟩
    else ⟨[be.piece (be.sample i)], "Failed to decode token",
      StopReason.decodeError, 1⟩

/-- The local maxPromptTokens of generateStream: n_ctx - cfg.maxTokens - 16,
a C int (may be negative). -/
def promptBudget (be : Backend) (cfg : LlamaConfig) : Int :=
  (be.nCtx : Int) - cfg.maxTokens - 16

/-- The prompt tokens actually evaluated: smart-truncated to the budget when
too long, unchanged otherwise. -/
def effectiveTokens (be : Backend) (cfg : LlamaConfig) (prompt : String) :
    List Int :=
  if ((be.tokenize prompt).length : Int) > promptBudget be cfg then
    smartTruncate (be.tokenize prompt) (promptBudget be cfg).toNat
  else be.tokenize prompt

/-- generateStream(prompt, callback, config): the observable outcome of one
call.  pflag and gflag give the values of the successive shouldCancel_ reads
of the prompt loop and of the generation loop; the source sets shouldCancel_
= false at entry, before any read, so the entry value Session.shouldCancel
never reaches a read and the outcome depends on the reads alone.  The
events trace records the is-generating writes, the callback invocations and
the llama_batch_free call in source order on each path. -/
def generateStream (sess : Session) (be : Backend) (prompt : String)
    (config : Option LlamaConfig) (pflag gflag : Nat → Bool) : GenOutcome :=
  if ¬ (sess.model.isSome ∧ sess.context.isSome) then
    { emitted := [], lastError := "Model not loaded",
      isGenerating := sess.isGenerating, events := [], reason := none,
      iters := 0 }
  else if (be.tokenize prompt).isEmpty then
    { emitted := [], lastError := "Failed to tokenize prompt",
      isGenerating := false,
      events := [GEvent.setGenerating true, GEvent.setGenerating false],
      reason := none, iters := 0 }
  else if ((be.tokenize prompt).length : Int) >
        promptBudget be (config.getD sess.currentConfig) ∧
      promptBudget be (config.getD sess.currentConfig) < 64 then
    { emitted := [],
      lastError := "Context too small for generation. Need at least 64 tokens for prompt.",
      isGenerating := false,
      events := [GEvent.setGenerating true, GEvent.setGenerating false],
      reason := none, iters := 0 }
  else if promptLoop be pflag
      (((config.getD sess.currentConfig).batchSize.emod ((2 : Int) ^ 64)).toNat)
      (effectiveTokens be (config.getD sess.currentConfig) prompt).length
      (effectiveTokens be (config.getD sess.currentConfig) prompt).length
      0 0 = false then
    { emitted := [], lastError := "Failed to process prompt batch",
      isGenerating := false,
      events := [GEvent.setGenerating true, GEvent.freeBatch,
        GEvent.setGenerating false],
      reason := none, iters := 0 }
  else
    { emitted := (genLoop be gflag sess.sampler sess.context 0
        (config.getD sess.currentConfig).maxTokens.toNat).emitted,
      lastError := (genLoop be gflag sess.sampler sess.context 0
        (config.getD sess.currentConfig).maxTokens.toNat).err,
      isGenerating := false,
      events := GEvent.setGenerating true ::
        ((genLoop be gflag sess.sampler sess.context 0
          (config.getD sess.currentConfig).maxTokens.toNat).emitted.map
            GEvent.emit ++
          [GEvent.setGenerating false, GEvent.freeBatch]),
      reason := some (genLoop be gflag sess.sampler sess.context 0
        (config.getD sess.currentConfig).maxTokens.toNat).reason,
      iters := (genLoop be gflag sess.sampler sess.context 0
        (config.getD sess.currentConfig).maxTokens.toNat).iters }

/-- generate(prompt, config): runs generateStream with a callback that
appends each token to an accumulating result string (result += token) and
returns the accumulated result. -/
def generate (sess : Session) (be : Backend) (prompt : String)
    (config : Option LlamaConfig) (pflag gflag : Nat → Bool) : String :=
  (generateStream sess be prompt config pflag gflag).emitted.foldl
    (fun r t => r ++ t) ""

/-- A loaded session with the default configuration, empty error slot and
clear flags. -/
def loadedSession : Session :=
  { model := some 1, context := some 2, sampler := some 3,
    currentConfig := {}, lastError := "", isGenerating := false,
    shouldCancel := false }

/-- The stub backend of the end-to-end scenario: every prompt tokenizes to
[1, 2, 3]; generation samples tokens 10, 11, 12 whose pieces are a, b, c and
then the end-of-sequence token 99; every decode succeeds. -/
def stubBackend : Backend :=
  { tokenize := fun _ => [1, 2, 3],
    nCtx := 2048,
    promptDecode := fun _ => true,
    sample := fun i =>
      if i = 0 then 10 else if i = 1 then 11 else if i = 2 then 12 else 99,
    isEog := fun t => t == 99,
    piece := fun t =>
      if t = 10 then "a" else if t = 11 then "b"
      else if t = 12 then "c" else "",
    decode := fun _ => true }

/-- The all-false flag stream: no cancellation request ever arrives. -/
def noCancel : Nat → Bool := fun _ => false

/-- A flag stream whose polls read true from the fifth read on: the
cancellation request lands after the third callback (iteration 3's poll may
or may not see it; poll 4 certainly does). -/
def cancelAt4 : Nat → Bool := fun n => decide (4 ≤ n)

/-- A backend whose very first prompt-chunk decode fails, used to drive
generateStream onto the prompt-decode-failure exit path. -/
def promptFailBackend : Backend :=
  { tokenize := fun _ => [1, 2, 3],
    nCtx := 2048,
    promptDecode := fun _ => false,
    sample := fun _ => 10,
    isEog := fun _ => false,
    piece := fun _ => "",
    decode := fun _ => true }

/-- A backend that tokenizes every prompt to 200 tokens against a context
window of 128, used for the overflow scenario of the spec. -/
def overflowBackend : Backend :=
  { tokenize := fun _ => List.replicate 200 1,
    nCtx := 128,
    promptDecode := fun _ => true,
    sample := fun _ => 10,
    isEog := fun _ => false,
    piece := fun _ => "",
    decode := fun _ => true }

/-- A backend that never ends generation: distinct pieces, all decodes
succeed, no end-of-sequence token. -/
def endlessBackend : Backend :=
  { tokenize := fun _ => [1, 2, 3],
    nCtx := 2048,
    promptDecode := fun _ => true,
    sample := fun i => Int.ofNat (100 + i),
    isEog := fun _ => false,
    piece := fun _ => "t",
    decode := fun _ => true }

/-! Lemmas about the naive longest-common-prefix length. -/

theorem lcpLen_le_min : ∀ (a b : List Int), lcpLen a b ≤ min a.length b.length := by
  intro a
  induction a with
  | nil => intro b; cases b <;> simp [lcpLen]
  | cons x xs ih =>
    intro b
    cases b with
    | nil => simp [lcpLen]
    | cons y ys =>
      by_cases h : x = y
      · have := ih ys
        simp only [lcpLen, if_pos h, List.length_cons]
        omega
      · simp [lcpLen, h]

theorem take_eq_of_le_lcpLen :
    ∀ (a b : List Int) (m : Nat), m ≤ lcpLen a b → a.take m = b.take m := by
  intro a
  induction a with
  | nil =>
    intro b m h
    cases b <;> simp [lcpLen] at h <;> simp [h]
  | cons x xs ih =>
    intro b m h
    cases b with
    | nil => simp [lcpLen] at h; simp [h]
    | cons y ys =>
      by_cases hxy : x = y
      · rw [lcpLen, if_pos hxy] at h
        cases m with
        | zero => simp
        | succ m' =>
          simp only [List.take_succ_cons, hxy]
          rw [ih ys m' (by omega)]
      · simp [lcpLen, hxy] at h; simp [h]

theorem le_lcpLen_of_take_eq :
    ∀ (a b : List Int) (m : Nat), m ≤ a.length → m ≤ b.length →
      a.take m = b.take m → m ≤ lcpLen a b := by
  intro a
  induction a with
  | nil =>
    intro b m h1 _ _
    simp at h1
    simp [h1]
  | cons x xs ih =>
    intro b m h1 h2 ht
    cases b with
    | nil => simp at h2; simp [h2]
    | cons y ys =>
      cases m with
      | zero => simp
      | succ m' =>
        simp only [List.take_succ_cons, List.cons.injEq] at ht
        obtain ⟨hxy, ht'⟩ := ht
        rw [lcpLen, if_pos hxy]
        have := ih ys m' (by simpa using h1) (by simpa using h2) ht'
        omega

theorem getD_eq_of_take_eq :
    ∀ (a b : List Int) (m i : Nat), a.take m = b.take m → i < m →
      a.getD i 0 = b.getD i 0 := by
  intro a
  induction a with
  | nil =>
    intro b m i ht hi
    cases b with
    | nil => rfl
    | cons y ys =>
      cases m with
      | zero => omega
      | succ m' => simp [List.take_succ_cons] at ht
  | cons x xs ih =>
    intro b m i ht hi
    cases b with
    | nil =>
      cases m with
      | zero => omega
      | succ m' => simp [List.take_succ_cons] at ht
    | cons y ys =>
      cases m with
      | zero => omega
      | succ m' =>
        simp only [List.take_succ_cons, List.cons.injEq] at ht
        obtain ⟨hxy, ht'⟩ := ht
        cases i with
        | zero => simpa [List.getD] using hxy
        | succ i' =>
          simp only [List.getD_cons_succ]
          exact ih ys m' i' ht' (by omega)

theorem sampledCheckAux_of_pointwise (a b : List Int) (mid : Nat)
    (h : ∀ j, j < mid → a.getD j 0 = b.getD j 0) :
    ∀ (fuel i : Nat), sampledCheckAux a b mid fuel i = true := by
  intro fuel
  induction fuel with
  | zero => intro i; rfl
  | succ fuel ih =>
    intro i
    rw [sampledCheckAux]
    by_cases hi : i < mid
    · rw [if_pos hi, if_pos (h i hi)]
      exact ih _
    · rw [if_neg hi]

theorem sampledCheck_of_pointwise (a b : List Int) (mid : Nat)
    (h : ∀ j, j < mid → a.getD j 0 = b.getD j 0) (i : Nat) :
    sampledCheck a b mid i = true :=
  sampledCheckAux_of_pointwise a b mid h (mid - i) i

theorem computeRollingHash_congr (a b : List Int) (mid : Nat)
    (h : a.take mid = b.take mid) :
    computeRollingHash a 0 mid = computeRollingHash b 0 mid := by
  unfold computeRollingHash
  rw [List.drop_zero, List.drop_zero, h]

/-- Under the no-surviving-collision hypothesis, the hash-plus-sampled test of
the binary search decides true prefix equality, hence membership below the
true common-prefix length. -/
theorem hashCheck_iff (a b : List Int)
    (hcol : ∀ mid, mid ≤ min a.length b.length → 1 ≤ mid →
      computeRollingHash a 0 mid = computeRollingHash b 0 mid →
      sampledCheck a b mid 0 = true → a.take mid = b.take mid)
    (mid : Nat) (h1 : 1 ≤ mid) (h2 : mid ≤ min a.length b.length) :
    (((computeRollingHash a 0 mid == computeRollingHash b 0 mid) &&
      sampledCheck a b mid 0) = true) ↔ mid ≤ lcpLen a b := by
  constructor
  · intro h
    simp only [Bool.and_eq_true, beq_iff_eq] at h
    exact le_lcpLen_of_take_eq a b mid (le_trans h2 (min_le_left _ _))
      (le_trans h2 (min_le_right _ _)) (hcol mid h2 h1 h.1 h.2)
  · intro h
    have ht := take_eq_of_le_lcpLen a b mid h
    simp only [Bool.and_eq_true, beq_iff_eq]
    refine ⟨computeRollingHash_congr a b mid ht, ?_⟩
    exact sampledCheck_of_pointwise a b mid
      (fun j hj => getD_eq_of_take_eq a b mid j ht hj) 0

/-- Invariant-based correctness of the binary-search loop. -/
theorem lcpSearchAux_eq (a b : List Int)
    (hcol : ∀ mid, mid ≤ min a.length b.length → 1 ≤ mid →
      computeRollingHash a 0 mid = computeRollingHash b 0 mid →
      sampledCheck a b mid 0 = true → a.take mid = b.take mid) :
    ∀ (fuel lo hi result : Nat), hi + 1 - lo ≤ fuel → 1 ≤ lo →
      result + 1 = lo → result ≤ lcpLen a b → lcpLen a b ≤ hi →
      hi ≤ min a.length b.length →
      lcpSearchAux a b fuel lo hi result = lcpLen a b := by
  intro fuel
  induction fuel with
  | zero =>
    intro lo hi result hn h1 h2 h3 h4 h5
    simp only [lcpSearchAux]
    omega
  | succ fuel ih =>
    intro lo hi result hn h1 h2 h3 h4 h5
    rw [lcpSearchAux]
    by_cases hlh : lo ≤ hi
    · rw [if_pos hlh]
      have hmid1 : 1 ≤ lo + (hi - lo) / 2 := by omega
      have hmid2 : lo + (hi - lo) / 2 ≤ hi := by omega
      have hgood := hashCheck_iff a b hcol (lo + (hi - lo) / 2) hmid1
        (le_trans hmid2 h5)
      by_cases hg : ((computeRollingHash a 0 (lo + (hi - lo) / 2) ==
          computeRollingHash b 0 (lo + (hi - lo) / 2)) &&
          sampledCheck a b (lo + (hi - lo) / 2) 0) = true
      · rw [if_pos hg]
        exact ih (lo + (hi - lo) / 2 + 1) hi (lo + (hi - lo) / 2) (by omega)
          (by omega) rfl (hgood.mp hg) h4 h5
      · rw [if_neg hg]
        have hlt : lcpLen a b < lo + (hi - lo) / 2 := by
          by_contra hle
          exact hg (hgood.mpr (by omega))
        exact ih lo (lo + (hi - lo) / 2 - 1) result (by omega) h1 h2 h3
          (by omega) (by omega)
    · rw [if_neg hlh]
      omega

/-- C1: for every pair of token sequences in which no polynomial-hash
collision survives the sampled verification (whenever the rolling hashes of a
common candidate prefix agree and the sampled spot-check passes, the prefixes
really are equal), findLongestCommonPrefix returns the true longest-common-
prefix length; in particular it returns 0 when either sequence is empty or
the first elements differ, since lcpLen is 0 there. -/
theorem findLongestCommonPrefix_correct (a b : List Int)
    (hcol : ∀ mid, mid ≤ min a.length b.length → 1 ≤ mid →
      computeRollingHash a 0 mid = computeRollingHash b 0 mid →
      sampledCheck a b mid 0 = true → a.take mid = b.take mid) :
    findLongestCommonPrefix a b = lcpLen a b := by
  rcases a with _ | ⟨x, xs⟩
  · simp only [findLongestCommonPrefix, List.isEmpty_nil, Bool.true_or, if_pos]
    cases b <;> simp [lcpLen]
  · rcases b with _ | ⟨y, ys⟩
    · simp [findLongestCommonPrefix, lcpLen]
    · by_cases hxy : x = y
      · have hget : (x :: xs).getD 0 0 = (y :: ys).getD 0 0 := by
          simp only [List.getD_cons_zero]; exact hxy
        rw [findLongestCommonPrefix, if_neg (by simp),
          if_neg (by simp only [ne_eq, not_not, List.getD_cons_zero]; exact hxy)]
        have hlcp1 : 1 ≤ lcpLen (x :: xs) (y :: ys) := by
          rw [lcpLen, if_pos hxy]; omega
        exact lcpSearchAux_eq (x :: xs) (y :: ys) hcol
          (min (x :: xs).length (y :: ys).length + 1 - 1) 1
          (min (x :: xs).length (y :: ys).length) 0 le_rfl le_rfl rfl
          (by omega) (lcpLen_le_min (x :: xs) (y :: ys)) le_rfl
      · have hget : ¬ (x :: xs).getD 0 0 = (y :: ys).getD 0 0 := by
          simp only [List.getD_cons_zero]; exact hxy
        rw [findLongestCommonPrefix, if_neg (by simp), if_pos hget]
        rw [lcpLen, if_neg hxy]

/-- Witness for C1 at a = [1, 2, 3], b = [1, 2, 4]: the collision-freedom
hypothesis holds there by evaluation, and the returned length is the true
common-prefix length 2. -/
theorem findLongestCommonPrefix_correct_witness :
    (∀ mid, mid ≤ min ([1, 2, 3] : List Int).length ([1, 2, 4] : List Int).length →
      1 ≤ mid →
      computeRollingHash [1, 2, 3] 0 mid = computeRollingHash [1, 2, 4] 0 mid →
      sampledCheck [1, 2, 3] [1, 2, 4] mid 0 = true →
      List.take mid ([1, 2, 3] : List Int) = List.take mid [1, 2, 4]) ∧
    findLongestCommonPrefix [1, 2, 3] [1, 2, 4] = lcpLen [1, 2, 3] [1, 2, 4] := by
  refine ⟨by decide, findLongestCommonPrefix_correct [1, 2, 3] [1, 2, 4] (by decide)⟩

/-! C2: smartTruncate. -/

theorem tailFromAux_length_bound (tokens : List Int) (maxT : Nat) :
    ∀ (fuel i curLen : Nat), curLen < maxT →
      curLen + (tailFromAux tokens maxT fuel i curLen).length ≤ maxT := by
  intro fuel
  induction fuel with
  | zero => intro i curLen h; simp [tailFromAux]; omega
  | succ fuel ih =>
    intro i curLen h
    rw [tailFromAux]
    by_cases hi : i < tokens.length
    · rw [if_pos hi]
      by_cases hfull : maxT ≤ curLen + 1
      · rw [if_pos hfull]
        simp only [List.length_cons, List.length_nil]
        omega
      · rw [if_neg hfull]
        have := ih (i + 1) (curLen + 1) (by omega)
        simp only [List.length_cons]
        omega
    · rw [if_neg hi]
      simp only [List.length_nil]
      omega

/-- C2 counterexample: the claim quantifies over every target below the
sequence length, but at target 10 with an 11-token sequence the reserved
head max(32, 15% of 10) = 32 exceeds the target, the whole sequence is
copied into the head, and the result has 11 > 10 tokens. -/
theorem smartTruncate_counterexample :
    10 < (List.replicate 11 (0 : Int)).length ∧
    ¬ (smartTruncate (List.replicate 11 (0 : Int)) 10).length ≤ 10 := by
  decide

theorem keepStart_lt (target : Nat) (h64 : 64 ≤ target) :
    keepStart target < target := by
  have hdiv : target * 15 / 100 < target := by
    rw [Nat.div_lt_iff_lt_mul (by omega)]
    nlinarith
  rw [keepStart]
  omega

theorem headSeg_eq (seq : List Int) (target : Nat) (h : keepStart target ≤ seq.length) :
    headSeg seq target = seq.take (keepStart target) := by
  rw [headSeg, min_eq_left h]

/-- C2 amended: for every token sequence seq and target with
len(seq) > target and target ≥ 64 (the engine only invokes smartTruncate
with budgets of at least 64, enforced by the context-too-small check),
smartTruncate returns a sequence of length at most target whose first
head = max(32, 15% of target) tokens are exactly the first head tokens of
seq. -/
theorem smartTruncate_spec (seq : List Int) (target : Nat)
    (h64 : 64 ≤ target) (hlen : target < seq.length) :
    (smartTruncate seq target).length ≤ target ∧
    (smartTruncate seq target).take (max 32 (target * 15 / 100)) =
      seq.take (max 32 (target * 15 / 100)) := by
  have hK : keepStart target < target := keepStart_lt target h64
  have hKlen : keepStart target ≤ seq.length := by omega
  have hhead : headSeg seq target = seq.take (keepStart target) :=
    headSeg_eq seq target hKlen
  have hheadlen : (headSeg seq target).length = keepStart target := by
    rw [hhead]
    simp [List.length_take, min_eq_left hKlen]
  rw [show max 32 (target * 15 / 100) = keepStart target from rfl]
  rw [smartTruncate, if_neg (by omega)]
  constructor
  · rw [List.length_append, hheadlen]
    have hb := tailFromAux_length_bound seq target
      (seq.length - findCut seq (searchEnd seq.length target)
        (searchStart seq.length target))
      (findCut seq (searchEnd seq.length target) (searchStart seq.length target))
      (headSeg seq target).length (by omega)
    rw [hheadlen] at hb
    rw [tailFrom]
    exact hb
  · rw [List.take_append_eq_append_take, hheadlen, Nat.sub_self, List.take_zero,
      List.append_nil, hhead, List.take_take, min_self]

/-- Witness for C2 (amended) at a 65-token sequence and target 64. -/
theorem smartTruncate_spec_witness :
    64 ≤ 64 ∧ 64 < (List.replicate 65 (7 : Int)).length ∧
    ((smartTruncate (List.replicate 65 (7 : Int)) 64).length ≤ 64 ∧
      (smartTruncate (List.replicate 65 (7 : Int)) 64).take (max 32 (64 * 15 / 100)) =
        (List.replicate 65 (7 : Int)).take (max 32 (64 * 15 / 100))) :=
  ⟨by decide, by decide,
    smartTruncate_spec (List.replicate 65 (7 : Int)) 64 (by decide) (by decide)⟩

/-! Lemmas about the prompt and generation loops. -/

theorem promptLoop_ok (be : Backend) (pflag : Nat → Bool) (bs nPrompt : Nat)
    (hpd : ∀ i, be.promptDecode i = true) :
    ∀ (fuel processed cIdx : Nat),
      promptLoop be pflag bs nPrompt fuel processed cIdx = true := by
  intro fuel
  induction fuel with
  | zero => intro processed cIdx; rfl
  | succ fuel ih =>
    intro processed cIdx
    rw [promptLoop]
    by_cases hp : processed < nPrompt
    · rw [if_pos hp]
      by_cases hf : pflag cIdx
      · rw [if_pos hf]
      · rw [if_neg hf, if_pos (hpd cIdx)]
        exact ih _ _
    · rw [if_neg hp]

theorem genLoop_emitted_le (be : Backend) (gflag : Nat → Bool)
    (sampler context : Option Nat) :
    ∀ (fuel i m : Nat), gflag (i + m) = true →
      (genLoop be gflag sampler context i fuel).emitted.length ≤ m := by
  intro fuel
  induction fuel with
  | zero => intro i m _; simp [genLoop]
  | succ fuel ih =>
    intro i m hm
    rw [genLoop]
    by_cases hgi : gflag i
    · rw [if_pos hgi]; simp
    · rw [if_neg hgi]
      cases m with
      | zero => simp at hm; exact absurd hm hgi
      | succ m' =>
        by_cases hnull : sampler.isNone || context.isNone
        · rw [if_pos hnull]; simp
        · rw [if_neg hnull]
          by_cases hneg : be.sample i < 0
          · rw [if_pos hneg]; simp
          · rw [if_neg hneg]
            by_cases heog : be.isEog (be.sample i)
            · rw [if_pos heog]; simp
            · rw [if_neg heog]
              by_cases hdec : be.decode i
              · rw [if_pos hdec]
                simp only [List.length_cons]
                have := ih (i + 1) m' (by
                  have : i + 1 + m' = i + (m' + 1) := by omega
                  rw [this]; exact hm)
                omega
              · rw [if_neg hdec]; simp

theorem genLoop_err_empty (be : Backend) (gflag : Nat → Bool)
    (sampler context : Option Nat) (hs : sampler.isSome) (hc : context.isSome)
    (hd : ∀ i, be.decode i = true) :
    ∀ (fuel i : Nat), (genLoop be gflag sampler context i fuel).err = "" := by
  intro fuel
  induction fuel with
  | zero => intro i; rfl
  | succ fuel ih =>
    intro i
    rw [genLoop]
    by_cases hgi : gflag i
    · rw [if_pos hgi]
    · rw [if_neg hgi]
      rw [if_neg (by simp [Option.isNone_iff_eq_none] at *; exact ⟨by
        cases sampler <;> simp_all, by cases context <;> simp_all⟩)]
      by_cases hneg : be.sample i < 0
      · rw [if_pos hneg]
      · rw [if_neg hneg]
        by_cases heog : be.isEog (be.sample i)
        · rw [if_pos heog]
        · rw [if_neg heog, if_pos (hd i)]
          exact ih (i + 1)

theorem genLoop_reason_ne_internal (be : Backend) (gflag : Nat → Bool)
    (sampler context : Option Nat) (hs : sampler.isSome) (hc : context.isSome) :
    ∀ (fuel i : Nat),
      (genLoop be gflag sampler context i fuel).reason ≠
        StopReason.internalError := by
  intro fuel
  induction fuel with
  | zero => intro i; simp [genLoop]
  | succ fuel ih =>
    intro i
    rw [genLoop]
    by_cases hgi : gflag i
    · rw [if_pos hgi]; simp
    · rw [if_neg hgi]
      rw [if_neg (by cases sampler <;> cases context <;> simp_all)]
      by_cases hneg : be.sample i < 0
      · rw [if_pos hneg]; simp
      · rw [if_neg hneg]
        by_cases heog : be.isEog (be.sample i)
        · rw [if_pos heog]; simp
        · rw [if_neg heog]
          by_cases hdec : be.decode i
          · rw [if_pos hdec]; exact ih (i + 1)
          · rw [if_neg hdec]; simp

theorem genLoop_reason_ne_cancelled (be : Backend) (gflag : Nat → Bool)
    (sampler context : Option Nat) (hg : ∀ i, gflag i = false) :
    ∀ (fuel i : Nat),
      (genLoop be gflag sampler context i fuel).reason ≠
        StopReason.cancelled := by
  intro fuel
  induction fuel with
  | zero => intro i; simp [genLoop]
  | succ fuel ih =>
    intro i
    rw [genLoop]
    rw [if_neg (by simp [hg i])]
    by_cases hnull : sampler.isNone || context.isNone
    · rw [if_pos hnull]; simp
    · rw [if_neg hnull]
      by_cases hneg : be.sample i < 0
      · rw [if_pos hneg]; simp
      · rw [if_neg hneg]
        by_cases heog : be.isEog (be.sample i)
        · rw [if_pos heog]; simp
        · rw [if_neg heog]
          by_cases hdec : be.decode i
          · rw [if_pos hdec]; exact ih (i + 1)
          · rw [if_neg hdec]; simp

theorem genLoop_emitted_le_iters (be : Backend) (gflag : Nat → Bool)
    (sampler context : Option Nat) :
    ∀ (fuel i : Nat),
      (genLoop be gflag sampler context i fuel).emitted.length ≤
        (genLoop be gflag sampler context i fuel).iters := by
  intro fuel
  induction fuel with
  | zero => intro i; simp [genLoop]
  | succ fuel ih =>
    intro i
    rw [genLoop]
    by_cases hgi : gflag i
    · rw [if_pos hgi]; simp
    · rw [if_neg hgi]
      by_cases hnull : sampler.isNone || context.isNone
      · rw [if_pos hnull]; simp
      · rw [if_neg hnull]
        by_cases hneg : be.sample i < 0
        · rw [if_pos hneg]; simp
        · rw [if_neg hneg]
          by_cases heog : be.isEog (be.sample i)
          · rw [if_pos heog]; simp
          · rw [if_neg heog]
            by_cases hdec : be.decode i
            · rw [if_pos hdec]
              simp only [List.length_cons]
              have := ih (i + 1)
              omega
            · rw [if_neg hdec]; simp

/-- C3: when the tokenized prompt exceeds the available budget
contextWindow - maxTokens - 16 and that budget is below 64, generateStream
fails: the last-error slot is non-empty afterwards and the token callback is
invoked zero times. -/
theorem generateStream_contextTooSmall (sess : Session) (be : Backend)
    (prompt : String) (config : Option LlamaConfig) (pflag gflag : Nat → Bool)
    (hm : sess.model.isSome) (hc : sess.context.isSome)
    (hover : ((be.tokenize prompt).length : Int) >
      promptBudget be (config.getD sess.currentConfig))
    (hsmall : promptBudget be (config.getD sess.currentConfig) < 64) :
    (generateStream sess be prompt config pflag gflag).lastError ≠ "" ∧
    (generateStream sess be prompt config pflag gflag).emitted = [] := by
  rw [generateStream, if_neg (by simp [hm, hc])]
  by_cases ht : (be.tokenize prompt).isEmpty
  · rw [if_pos ht]
    exact ⟨by simp, rfl⟩
  · rw [if_neg ht, if_pos ⟨hover, hsmall⟩]
    exact ⟨by simp, rfl⟩

set_option maxRecDepth 8000 in
/-- Witness for C3: the spec's overflow scenario — context window 128,
maxTokens 100, a 200-token prompt; the budget 128 - 100 - 16 = 12 is below
64. -/
theorem generateStream_contextTooSmall_witness :
    loadedSession.model.isSome ∧ loadedSession.context.isSome ∧
    (((overflowBackend.tokenize "p").length : Int) >
      promptBudget overflowBackend
        ((some { maxTokens := 100 } : Option LlamaConfig).getD
          loadedSession.currentConfig)) ∧
    (promptBudget overflowBackend
      ((some { maxTokens := 100 } : Option LlamaConfig).getD
        loadedSession.currentConfig) < 64) ∧
    ((generateStream loadedSession overflowBackend "p"
        (some { maxTokens := 100 }) noCancel noCancel).lastError ≠ "" ∧
      (generateStream loadedSession overflowBackend "p"
        (some { maxTokens := 100 }) noCancel noCancel).emitted = []) :=
  ⟨by decide, by decide, by decide, by decide,
    generateStream_contextTooSmall loadedSession overflowBackend "p"
      (some { maxTokens := 100 }) noCancel noCancel (by decide) (by decide)
      (by decide) (by decide)⟩

/-- C4: if the cancellation flag is observed set by the generation loop's
poll k + 1 (as when cancelGeneration is called right after the k-th callback
invocation), then in a run whose backend decodes succeed the loop terminates
with at most k + 1 tokens emitted, the already-emitted tokens are the
result, the last-error slot stays empty, and isGenerating() is false
afterwards. -/
theorem generateStream_cancelBound (sess : Session) (be : Backend)
    (prompt : String) (config : Option LlamaConfig) (pflag gflag : Nat → Bool)
    (k : Nat) (hm : sess.model.isSome) (hc : sess.context.isSome)
    (hs : sess.sampler.isSome) (htok : ¬ (be.tokenize prompt).isEmpty)
    (hfit : ¬ (((be.tokenize prompt).length : Int) >
        promptBudget be (config.getD sess.currentConfig) ∧
      promptBudget be (config.getD sess.currentConfig) < 64))
    (hpd : ∀ i, be.promptDecode i = true) (hd : ∀ i, be.decode i = true)
    (hset : gflag (k + 1) = true) :
    (generateStream sess be prompt config pflag gflag).emitted.length ≤ k + 1 ∧
    (generateStream sess be prompt config pflag gflag).lastError = "" ∧
    (generateStream sess be prompt config pflag gflag).isGenerating = false := by
  rw [generateStream, if_neg (by simp [hm, hc]), if_neg htok, if_neg hfit,
    if_neg (by rw [promptLoop_ok be pflag _ _ hpd]; simp)]
  refine ⟨?_, ?_, rfl⟩
  · exact genLoop_emitted_le be gflag sess.sampler sess.context _ 0 (k + 1)
      (by simpa using hset)
  · exact genLoop_err_empty be gflag sess.sampler sess.context hs hc hd _ 0

/-- Witness for C4: the spec's cancellation scenario — maxTokens 1000, flag
set after the third callback (observed at poll 4), a backend that never ends
generation on its own; at most 4 tokens, no error, not generating. -/
theorem generateStream_cancelBound_witness :
    (¬ (endlessBackend.tokenize "p").isEmpty) ∧ cancelAt4 (3 + 1) = true ∧
    ((generateStream loadedSession endlessBackend "p"
        (some { maxTokens := 1000 }) noCancel cancelAt4).emitted.length ≤ 3 + 1 ∧
      (generateStream loadedSession endlessBackend "p"
        (some { maxTokens := 1000 }) noCancel cancelAt4).lastError = "" ∧
      (generateStream loadedSession endlessBackend "p"
        (some { maxTokens := 1000 }) noCancel cancelAt4).isGenerating = false) :=
  ⟨by decide, by decide,
    generateStream_cancelBound loadedSession endlessBackend "p"
      (some { maxTokens := 1000 }) noCancel cancelAt4 3 (by decide) (by decide)
      (by decide) (by decide) (by decide) (fun _ => rfl) (fun _ => rfl)
      (by decide)⟩

theorem genLoop_reason_count (be : Backend) (gflag : Nat → Bool)
    (sampler context : Option Nat) (hs : sampler.isSome) (hc : context.isSome) :
    ∀ (fuel i : Nat),
      ([decide ((genLoop be gflag sampler context i fuel).reason =
          StopReason.eog),
        decide ((genLoop be gflag sampler context i fuel).reason =
          StopReason.limit),
        decide ((genLoop be gflag sampler context i fuel).reason =
          StopReason.cancelled),
        decide ((genLoop be gflag sampler context i fuel).reason =
            StopReason.decodeError ∨
          (genLoop be gflag sampler context i fuel).reason =
            StopReason.invalidSample)].count true) = 1 := by
  intro fuel i
  have hne := genLoop_reason_ne_internal be gflag sampler context hs hc fuel i
  rcases hrr : (genLoop be gflag sampler context i fuel).reason
  case internalError => exact absurd hrr hne
  all_goals simp

/-- C9: every run that reaches the sampling loop terminates for exactly one
of the four reasons {natural end-of-sequence, token limit reached,
cancellation, decode/sample error} (the invalid-sample soft-stop being the
sample-error member of the last bucket), and no iteration emits more than
one token: the emitted count never exceeds the number of iterations
started. -/
theorem generateStream_samplingInvariant (sess : Session) (be : Backend)
    (prompt : String) (config : Option LlamaConfig) (pflag gflag : Nat → Bool)
    (hm : sess.model.isSome) (hc : sess.context.isSome)
    (hs : sess.sampler.isSome) (htok : ¬ (be.tokenize prompt).isEmpty)
    (hfit : ¬ (((be.tokenize prompt).length : Int) >
        promptBudget be (config.getD sess.currentConfig) ∧
      promptBudget be (config.getD sess.currentConfig) < 64))
    (hpd : ∀ i, be.promptDecode i = true) :
    ∃ r, (generateStream sess be prompt config pflag gflag).reason = some r ∧
      ([decide (r = StopReason.eog), decide (r = StopReason.limit),
        decide (r = StopReason.cancelled),
        decide (r = StopReason.decodeError ∨
          r = StopReason.invalidSample)].count true) = 1 ∧
      (generateStream sess be prompt config pflag gflag).emitted.length ≤
        (generateStream sess be prompt config pflag gflag).iters := by
  rw [generateStream, if_neg (by simp [hm, hc]), if_neg htok, if_neg hfit,
    if_neg (by rw [promptLoop_ok be pflag _ _ hpd]; simp)]
  exact ⟨_, rfl, genLoop_reason_count be gflag sess.sampler sess.context hs hc _ 0,
    genLoop_emitted_le_iters be gflag sess.sampler sess.context _ 0⟩

/-- Witness for C9 on a backend that runs to the token limit. -/
theorem generateStream_samplingInvariant_witness :
    (¬ (endlessBackend.tokenize "p").isEmpty) ∧
    (∃ r, (generateStream loadedSession endlessBackend "p" none noCancel
        noCancel).reason = some r ∧
      ([decide (r = StopReason.eog), decide (r = StopReason.limit),
        decide (r = StopReason.cancelled),
        decide (r = StopReason.decodeError ∨
          r = StopReason.invalidSample)].count true) = 1 ∧
      (generateStream loadedSession endlessBackend "p" none noCancel
          noCancel).emitted.length ≤
        (generateStream loadedSession endlessBackend "p" none noCancel
          noCancel).iters) :=
  ⟨by decide,
    generateStream_samplingInvariant loadedSession endlessBackend "p" none
      noCancel noCancel (by decide) (by decide) (by decide) (by decide)
      (by decide) (fun _ => rfl)⟩

/-- C10: generateStream resets the shared cancellation flag at entry before
any poll, so its outcome does not depend on the flag value the call starts
with, and a run during which no cancellation request arrives never
terminates by cancellation — stale cancelGeneration calls are discarded. -/
theorem generateStream_staleCancelDiscarded (sess : Session) (be : Backend)
    (prompt : String) (config : Option LlamaConfig) (pflag gflag : Nat → Bool)
    (b : Bool) :
    generateStream { sess with shouldCancel := b } be prompt config pflag
        gflag =
      generateStream sess be prompt config pflag gflag ∧
    ((∀ i, pflag i = false) → (∀ i, gflag i = false) →
      (generateStream sess be prompt config pflag gflag).reason ≠
        some StopReason.cancelled) := by
  constructor
  · rfl
  · intro hp hg
    rw [generateStream]
    split
    · simp
    · split
      · simp
      · split
        · simp
        · split
          · simp
          · simp only [ne_eq, Option.some.injEq]
            exact genLoop_reason_ne_cancelled be gflag sess.sampler
              sess.context hg _ 0

/-- Witness for C10: a session whose flag is stale-set at entry produces the
identical outcome, and with no arrivals the reason is not cancellation. -/
theorem generateStream_staleCancelDiscarded_witness :
    (generateStream { loadedSession with shouldCancel := true } endlessBackend
        "p" none noCancel noCancel =
      generateStream loadedSession endlessBackend "p" none noCancel noCancel) ∧
    (generateStream loadedSession endlessBackend "p" none noCancel
        noCancel).reason ≠ some StopReason.cancelled :=
  ⟨(generateStream_staleCancelDiscarded loadedSession endlessBackend "p" none
      noCancel noCancel true).1,
    (generateStream_staleCancelDiscarded loadedSession endlessBackend "p" none
      noCancel noCancel true).2 (fun _ => rfl) (fun _ => rfl)⟩

/-- C5: generate returns exactly the in-order concatenation of the token
strings generateStream passes to its callback; in particular, with the stub
backend that emits a, b, c and then an end-of-sequence token, generate of
any prompt returns abc. -/
theorem generate_eq_stream_concat :
    (∀ (sess : Session) (be : Backend) (prompt : String)
      (config : Option LlamaConfig) (pflag gflag : Nat → Bool),
      generate sess be prompt config pflag gflag =
        String.join (generateStream sess be prompt config pflag
          gflag).emitted) ∧
    generate loadedSession stubBackend "hello" none noCancel noCancel =
      "abc" := by
  constructor
  · intro sess be prompt config pflag gflag
    rfl
  · decide

/-- C8, evaluated at the failing input: a run whose first prompt-chunk
decode fails releases the decode batch (llama_batch_free) BEFORE clearing
the is-generating flag — the opposite of the order the claim (and the
source's own comment, lines 322-323) requires on every exit path. -/
theorem generateStream_promptDecodeFail_trace :
    (generateStream loadedSession promptFailBackend "p" none noCancel
        noCancel).events =
      [GEvent.setGenerating true, GEvent.freeBatch,
        GEvent.setGenerating false] := by
  decide

/-! C6: unloadModel. -/

theorem unloadModel_cleared (s : SessionRes) :
    unloadModel (unloadModel s).1 = ((unloadModel s).1, []) := rfl

theorem unloadN_succ_eq :
    ∀ (n : Nat) (s : SessionRes),
      unloadN s (n + 1) = ((unloadModel s).1, (unloadModel s).2) := by
  intro n
  induction n with
  | zero => intro s; simp [unloadN]
  | succ n ih =>
    intro s
    rw [unloadN, ih (unloadModel s).1, unloadModel_cleared]
    simp

/-- C6: any number n ≥ 1 of consecutive unloadModel calls, from any resource
state (including partially constructed ones), leaves all three handles null,
keeps the error slot unchanged, frees exactly what the first call freed
(later calls free nothing), never frees the same resource twice, and frees
nothing that was not owned (each free is guarded by a non-null check). -/
theorem unloadModel_idempotent_safe (s : SessionRes) (n : Nat) (hn : 1 ≤ n) :
    (unloadN s n).1.sampler = none ∧ (unloadN s n).1.context = none ∧
    (unloadN s n).1.model = none ∧ (unloadN s n).1.lastError = s.lastError ∧
    (unloadN s n).2 = (unloadModel s).2 ∧ ((unloadN s n).2).Nodup ∧
    (s.sampler = none → ∀ h, FreeEvent.freeSampler h ∉ (unloadN s n).2) ∧
    (s.context = none → ∀ h, FreeEvent.freeContext h ∉ (unloadN s n).2) ∧
    (s.model = none → ∀ h, FreeEvent.freeModel h ∉ (unloadN s n).2) := by
  obtain ⟨m, rfl⟩ : ∃ m, n = m + 1 := ⟨n - 1, by omega⟩
  rw [unloadN_succ_eq]
  rcases s with ⟨os, oc, om, err⟩
  rcases os with _ | hs <;> rcases oc with _ | hcx <;> rcases om with _ | hm <;>
    simp [unloadModel]

/-- Witness for C6: two unloads of a partially constructed session (sampler
and context live, model null). -/
theorem unloadModel_idempotent_safe_witness :
    1 ≤ 2 ∧
    ((unloadN ⟨some 1, some 2, none, "e"⟩ 2).1.sampler = none ∧
      (unloadN ⟨some 1, some 2, none, "e"⟩ 2).1.context = none ∧
      (unloadN ⟨some 1, some 2, none, "e"⟩ 2).1.model = none ∧
      (unloadN ⟨some 1, some 2, none, "e"⟩ 2).1.lastError =
        (⟨some 1, some 2, none, "e"⟩ : SessionRes).lastError ∧
      (unloadN ⟨some 1, some 2, none, "e"⟩ 2).2 =
        (unloadModel ⟨some 1, some 2, none, "e"⟩).2 ∧
      ((unloadN ⟨some 1, some 2, none, "e"⟩ 2).2).Nodup ∧
      ((⟨some 1, some 2, none, "e"⟩ : SessionRes).sampler = none →
        ∀ h, FreeEvent.freeSampler h ∉ (unloadN ⟨some 1, some 2, none, "e"⟩ 2).2) ∧
      ((⟨some 1, some 2, none, "e"⟩ : SessionRes).context = none →
        ∀ h, FreeEvent.freeContext h ∉ (unloadN ⟨some 1, some 2, none, "e"⟩ 2).2) ∧
      ((⟨some 1, some 2, none, "e"⟩ : SessionRes).model = none →
        ∀ h, FreeEvent.freeModel h ∉ (unloadN ⟨some 1, some 2, none, "e"⟩ 2).2)) :=
  ⟨by decide, unloadModel_idempotent_safe ⟨some 1, some 2, none, "e"⟩ 2 (by decide)⟩

/-- C7: setupSampler builds exactly the chain the specification describes:
penalties (window 64, frequency and presence zero) iff repeatPenalty ≠ 1.0,
top-k iff topK > 0, top-p (min-keep 1) iff topP < 1.0, temperature iff
temperature > 0, and a final distribution stage seeded by the configured
seed when seed ≥ 0 and by the wall-clock time at chain-build time when
seed < 0 — in that fixed order. -/
theorem setupSampler_correct (config : LlamaConfig) (now : Nat) :
    setupSampler config now = samplerChainSpec config now := by
  have e1 : (if config.repeatPenalty ≠ 1 then
        [SamplerStage.penalties 64 config.repeatPenalty 0 0] else []) =
      (if config.repeatPenalty = 1 then none
        else some (SamplerStage.penalties 64 config.repeatPenalty 0 0)).toList := by
    by_cases h : config.repeatPenalty = 1 <;> simp [h]
  have e2 : (if 0 < config.topK then [SamplerStage.topK config.topK] else []) =
      (if config.topK ≤ 0 then none
        else some (SamplerStage.topK config.topK)).toList := by
    by_cases h : 0 < config.topK
    · rw [if_pos h, if_neg (by omega)]
      rfl
    · rw [if_neg h, if_pos (by omega)]
      rfl
  have e3 : (if config.topP < 1 then [SamplerStage.topP config.topP 1] else []) =
      (if 1 ≤ config.topP then none
        else some (SamplerStage.topP config.topP 1)).toList := by
    by_cases h : config.topP < 1
    · rw [if_pos h, if_neg (not_le.mpr h)]
      rfl
    · rw [if_neg h, if_pos (not_lt.mp h)]
      rfl
  have e4 : (if 0 < config.temperature then
        [SamplerStage.temp config.temperature] else []) =
      (if config.temperature ≤ 0 then none
        else some (SamplerStage.temp config.temperature)).toList := by
    by_cases h : 0 < config.temperature
    · rw [if_pos h, if_neg (not_le.mpr h)]
      rfl
    · rw [if_neg h, if_pos (not_lt.mp h)]
      rfl
  have e5 : SamplerStage.dist (if 0 ≤ config.seed then config.seed.toNat
        else now) =
      SamplerStage.dist (if config.seed < 0 then now else config.seed.toNat) := by
    by_cases h : 0 ≤ config.seed
    · rw [if_pos h, if_neg (by omega)]
    · rw [if_neg h, if_pos (by omega)]
  rw [setupSampler, samplerChainSpec, e1, e2, e3, e4, e5]

end LlamaKotlin
